import Mathlib

/-!
Shallow embedding of `braintree/configuration.py` (class `Configuration`).

The Python class keeps process-wide static state (`Configuration.environment`,
`Configuration.merchant_id`, `Configuration.public_key`,
`Configuration.private_key`, `Configuration.use_unsafe_ssl`,
`Configuration.use_once`) and builds per-call snapshot instances.  We model
the static state as an explicit `ProcessConfig` record and each instance as a
`Configuration` record; methods become pure functions threading this state.
`os.environ["PYTHON_HTTP_STRATEGY"]` is passed as an `Option String`
parameter and `sys.version_info` as a `Nat × Nat` (major, minor) pair.
Credential attributes may hold Python `None` (after one-shot clearing), so
they are `Option String`; the `+` in `base_merchant_path` raises `TypeError`
on `None`, embedded as `Option.map`.  Strategy objects (`HttplibStrategy`,
`PycurlStrategy`, `RequestsStrategy`) are constructed with
`(self, self.environment)`; the circular `self` reference is dropped and a
strategy value records its constructor and the environment it was built from.
`raise ValueError("invalid http strategy")` becomes `Except.error`.
-/

namespace Braintree

/-- External environment descriptor: the snapshot only reads
`environment.protocol` and `environment.server_and_port`. -/
structure Environment where
  protocol : String
  server_and_port : String
deriving DecidableEq, Repr

/-- Which HTTP strategy class a strategy object was instantiated from. -/
inductive HttpStrategyKind
  | httplibStrategy
  | pycurlStrategy
  | requestsStrategy
deriving DecidableEq, Repr

/-- A constructed strategy object: its class together with the `environment`
argument it was constructed with (the `self` back-reference is dropped). -/
structure HttpStrategy where
  kind : HttpStrategyKind
  environment : Environment
deriving DecidableEq, Repr

/-- The process-wide static attributes of the Python `Configuration` class,
as they stand after at least one `configure` call. -/
structure ProcessConfig where
  environment : Environment
  merchant_id : Option String
  public_key : Option String
  private_key : Option String
  use_unsafe_ssl : Bool
  use_once : Bool
deriving DecidableEq, Repr

/-- A per-call snapshot instance built by `Configuration.__init__`. -/
structure Configuration where
  environment : Environment
  merchant_id : Option String
  public_key : Option String
  private_key : Option String
  _http_strategy : HttpStrategy
deriving DecidableEq, Repr

/-- `Configuration.configure(environment, merchant_id, public_key,
private_key, use_once=False)`: assigns all six static attributes, so the
result does not depend on the previous static state `prev`. -/
def configure (_prev : ProcessConfig) (environment : Environment)
    (merchant_id public_key private_key : String) (use_once : Bool) :
    ProcessConfig :=
  { environment := environment
    merchant_id := some merchant_id
    public_key := some public_key
    private_key := some private_key
    use_unsafe_ssl := false
    use_once := use_once }

/-- `Configuration.__http_strategy_from_environment(self)`: dispatch on the
value of `os.environ["PYTHON_HTTP_STRATEGY"]`, raising `ValueError` on an
unrecognized name. -/
def http_strategy_from_environment (strategy_name : String)
    (environment : Environment) : Except String HttpStrategy :=
  if strategy_name = "httplib" then
    Except.ok ⟨HttpStrategyKind.httplibStrategy, environment⟩
  else if strategy_name = "pycurl" then
    Except.ok ⟨HttpStrategyKind.pycurlStrategy, environment⟩
  else if strategy_name = "requests" then
    Except.ok ⟨HttpStrategyKind.requestsStrategy, environment⟩
  else
    Except.error "invalid http strategy"

/-- `Configuration.__determine_http_strategy(self)`: the environment-variable
override wins; otherwise Python 2.5 selects pycurl and anything else selects
requests.  `os_strategy` is `os.environ`'s binding of `PYTHON_HTTP_STRATEGY`
(`none` when unset), `version_info` is `(sys.version_info[0],
sys.version_info[1])`. -/
def determine_http_strategy (os_strategy : Option String)
    (version_info : Nat × Nat) (environment : Environment) :
    Except String HttpStrategy :=
  match os_strategy with
  | some strategy_name => http_strategy_from_environment strategy_name environment
  | none =>
    if version_info.1 = 2 ∧ version_info.2 = 5 then
      Except.ok ⟨HttpStrategyKind.pycurlStrategy, environment⟩
    else
      Except.ok ⟨HttpStrategyKind.requestsStrategy, environment⟩

/-- `Configuration.__init__(self, environment, merchant_id, public_key,
private_key)`: stores the four fields and resolves `self._http_strategy`
once, propagating the `ValueError` a bad override raises. -/
def Configuration.init (os_strategy : Option String) (version_info : Nat × Nat)
    (environment : Environment) (merchant_id public_key private_key : Option String) :
    Except String Configuration :=
  (determine_http_strategy os_strategy version_info environment).map fun s =>
    { environment := environment
      merchant_id := merchant_id
      public_key := public_key
      private_key := private_key
      _http_strategy := s }

/-- `Configuration.instantiate()`: builds a snapshot from the static state,
then, when `use_once` is enabled, resets the three static credential
attributes to `None`.  Returns the snapshot together with the updated static
state. -/
def instantiate (pc : ProcessConfig) (os_strategy : Option String)
    (version_info : Nat × Nat) :
    Except String (Configuration × ProcessConfig) :=
  (Configuration.init os_strategy version_info pc.environment
      pc.merchant_id pc.public_key pc.private_key).map fun config =>
    if pc.use_once then
      (config, { pc with merchant_id := none, public_key := none,
                         private_key := none })
    else
      (config, pc)

/-- `Configuration.api_version()`. -/
def api_version : String := "3"

/-- `Configuration.base_merchant_path(self)`: `"/merchants/" +
self.merchant_id`; with a `None` merchant id the Python `+` raises, embedded
as `none`. -/
def Configuration.base_merchant_path (self : Configuration) : Option String :=
  self.merchant_id.map fun mid => "/merchants/" ++ mid

/-- `Configuration.base_merchant_url(self)`: `self.environment.protocol +
self.environment.server_and_port + self.base_merchant_path()`. -/
def Configuration.base_merchant_url (self : Configuration) : Option String :=
  self.base_merchant_path.map fun p =>
    self.environment.protocol ++ self.environment.server_and_port ++ p

/-- `Configuration.http_strategy(self)`: reads the process-wide
`Configuration.use_unsafe_ssl` flag at call time; when it is set, returns a
freshly constructed `HttplibStrategy(self, self.environment)`, otherwise the
strategy cached in `self._http_strategy`. -/
def Configuration.http_strategy (self : Configuration)
    (use_unsafe_ssl : Bool) : HttpStrategy :=
  if use_unsafe_ssl then
    ⟨HttpStrategyKind.httplibStrategy, self.environment⟩
  else
    self._http_strategy

/-- `Configuration._request_complete(self)`: reads the process-wide
`Configuration.use_once` flag; when set, resets this snapshot's own
credential fields to `None`. -/
def Configuration.request_complete (self : Configuration)
    (use_once : Bool) : Configuration :=
  if use_once then
    { self with merchant_id := none, public_key := none, private_key := none }
  else
    self

/-- A concrete sandbox-style environment used to evaluate the theorems on
concrete inputs. -/
def sandbox : Environment :=
  { protocol := "https://", server_and_port := "sandbox.example.com" }

/-- A concrete pre-existing process state used to evaluate the theorems on
concrete inputs. -/
def prevState : ProcessConfig :=
  { environment := sandbox
    merchant_id := some "old_mid"
    public_key := some "old_pub"
    private_key := some "old_priv"
    use_unsafe_ssl := true
    use_once := false }

/-- The strategy resolved under a modern interpreter with no override. -/
def reqStrategy : HttpStrategy :=
  ⟨HttpStrategyKind.requestsStrategy, sandbox⟩

/-- Process state configured with merchant "m1" and `use_once = true`. -/
def pcOnce : ProcessConfig :=
  { environment := sandbox
    merchant_id := some "m1"
    public_key := some "pub1"
    private_key := some "priv1"
    use_unsafe_ssl := false
    use_once := true }

/-- Process state configured with merchant "m2" and `use_once = false`. -/
def pcTwo : ProcessConfig :=
  configure prevState sandbox "m2" "pub2" "priv2" false

/-- The process state left behind after consuming `pcOnce` once. -/
def pcCleared : ProcessConfig :=
  { environment := sandbox
    merchant_id := none
    public_key := none
    private_key := none
    use_unsafe_ssl := false
    use_once := true }

/-- The snapshot produced from `pcOnce`. -/
def snapOnce : Configuration :=
  { environment := sandbox
    merchant_id := some "m1"
    public_key := some "pub1"
    private_key := some "priv1"
    _http_strategy := reqStrategy }

/-- The snapshot produced from `pcTwo`. -/
def snapTwo : Configuration :=
  { environment := sandbox
    merchant_id := some "m2"
    public_key := some "pub2"
    private_key := some "priv2"
    _http_strategy := reqStrategy }

/-- The snapshot produced from `pcCleared` (all credentials `None`). -/
def snapCleared : Configuration :=
  { environment := sandbox
    merchant_id := none
    public_key := none
    private_key := none
    _http_strategy := reqStrategy }

/-- The snapshot produced from `prevState`. -/
def snapPrev : Configuration :=
  { environment := sandbox
    merchant_id := some "old_mid"
    public_key := some "old_pub"
    private_key := some "old_priv"
    _http_strategy := reqStrategy }

/-- Helper: everything a successful `instantiate` determines about the
returned snapshot and the updated process state. -/
theorem instantiate_ok_elim {pc pc' : ProcessConfig} {os : Option String}
    {vi : Nat × Nat} {c : Configuration}
    (h : instantiate pc os vi = Except.ok (c, pc')) :
    c.environment = pc.environment ∧ c.merchant_id = pc.merchant_id ∧
    c.public_key = pc.public_key ∧ c.private_key = pc.private_key ∧
    determine_http_strategy os vi pc.environment
      = Except.ok c._http_strategy ∧
    pc' = (if pc.use_once then
             { pc with merchant_id := none, public_key := none,
                       private_key := none }
           else pc) := by
  cases hd : determine_http_strategy os vi pc.environment with
  | error e =>
    simp [instantiate, Configuration.init, hd, Except.map] at h
  | ok s =>
    simp only [instantiate, Configuration.init, hd, Except.map] at h
    cases hu : pc.use_once <;> simp only [hu, if_true, if_false,
      Bool.false_eq_true, Except.ok.injEq, Prod.mk.injEq] at h ⊢ <;>
      obtain ⟨hc, hp⟩ := h <;> subst hc <;> subst hp <;>
      simp [hd]

/-- Helper: `instantiate` fails exactly when strategy resolution fails. -/
theorem instantiate_error_iff (pc : ProcessConfig) (os : Option String)
    (vi : Nat × Nat) :
    (∃ e, instantiate pc os vi = Except.error e) ↔
    (∃ e, determine_http_strategy os vi pc.environment = Except.error e) := by
  cases hd : determine_http_strategy os vi pc.environment with
  | error e => simp [instantiate, Configuration.init, hd, Except.map]
  | ok s => simp [instantiate, Configuration.init, hd, Except.map]

/-- Helper: strategy resolution fails exactly when the override variable is
set to an unrecognized name. -/
theorem determine_error_iff (os : Option String) (vi : Nat × Nat)
    (env : Environment) :
    (∃ e, determine_http_strategy os vi env = Except.error e) ↔
    (∃ n, os = some n ∧ n ≠ "httplib" ∧ n ≠ "pycurl" ∧ n ≠ "requests") := by
  cases os with
  | none =>
    simp only [determine_http_strategy]
    constructor
    · rintro ⟨e, he⟩
      split at he <;> simp at he
    · rintro ⟨n, hn, -⟩
      exact absurd hn (by simp)
  | some n =>
    simp only [determine_http_strategy, http_strategy_from_environment]
    constructor
    · rintro ⟨e, he⟩
      refine ⟨n, rfl, ?_, ?_, ?_⟩ <;> intro hn <;> simp [hn] at he
    · rintro ⟨m, hm, h1, h2, h3⟩
      obtain rfl : n = m := by injection hm
      simp [h1, h2, h3]

/-- C1: after `configure` with `use_once = true`, one `instantiate` copies the
credentials into the snapshot and immediately clears the process-wide
merchant_id/public_key/private_key; a second `instantiate` without an
intervening `configure` returns a snapshot with cleared credentials; with
`use_once = false` the process-wide credentials are unchanged by
`instantiate`. -/
theorem configure_use_once_one_shot
    (prev pc1 pc2 pcf pcFalse : ProcessConfig) (c1 c2 cf : Configuration)
    (env : Environment) (mid pub priv : String)
    (os1 os2 osf : Option String) (vi1 vi2 vif : Nat × Nat)
    (h1 : instantiate (configure prev env mid pub priv true) os1 vi1
            = Except.ok (c1, pc1))
    (h2 : instantiate pc1 os2 vi2 = Except.ok (c2, pc2))
    (huf : pcFalse.use_once = false)
    (hf : instantiate pcFalse osf vif = Except.ok (cf, pcf)) :
    (c1.merchant_id = some mid ∧ c1.public_key = some pub ∧
       c1.private_key = some priv) ∧
    (pc1.merchant_id = none ∧ pc1.public_key = none ∧
       pc1.private_key = none) ∧
    (c2.merchant_id = none ∧ c2.public_key = none ∧
       c2.private_key = none) ∧
    (pcf.merchant_id = pcFalse.merchant_id ∧
       pcf.public_key = pcFalse.public_key ∧
       pcf.private_key = pcFalse.private_key) := by
  obtain ⟨-, hm1, hp1, hv1, -, hpc1⟩ := instantiate_ok_elim h1
  obtain ⟨-, hm2, hp2, hv2, -, -⟩ := instantiate_ok_elim h2
  obtain ⟨-, -, -, -, -, hpcf⟩ := instantiate_ok_elim hf
  simp only [configure, if_true] at hpc1
  simp only [huf, Bool.false_eq_true, if_false] at hpcf
  subst hpc1
  subst hpcf
  simp_all [configure]

/-- C1 witness: concrete one-shot run with merchant "m1", no override,
interpreter version (3, 6), and a `use_once = false` run from `prevState`. -/
theorem configure_use_once_one_shot_witness :
    instantiate (configure prevState sandbox "m1" "pub1" "priv1" true)
        none (3, 6) = Except.ok (snapOnce, pcCleared) ∧
    instantiate pcCleared none (3, 6) = Except.ok (snapCleared, pcCleared) ∧
    prevState.use_once = false ∧
    instantiate prevState none (3, 6) = Except.ok (snapPrev, prevState) ∧
    (snapOnce.merchant_id = some "m1" ∧ snapOnce.public_key = some "pub1" ∧
       snapOnce.private_key = some "priv1") ∧
    (pcCleared.merchant_id = none ∧ pcCleared.public_key = none ∧
       pcCleared.private_key = none) ∧
    (snapCleared.merchant_id = none ∧ snapCleared.public_key = none ∧
       snapCleared.private_key = none) ∧
    (prevState.merchant_id = prevState.merchant_id ∧
       prevState.public_key = prevState.public_key ∧
       prevState.private_key = prevState.private_key) :=
  ⟨rfl, rfl, rfl, rfl,
    configure_use_once_one_shot prevState pcCleared pcCleared prevState
      prevState snapOnce snapCleared snapPrev sandbox "m1" "pub1" "priv1"
      none none none (3, 6) (3, 6) (3, 6) rfl rfl rfl rfl⟩

/-- C2: when the process-wide unsafe-SSL flag is true at call time,
`http_strategy` returns a freshly constructed httplib
(SSL-verification-disabled) strategy for the snapshot's environment,
regardless of the strategy cached in `_http_strategy` (hence regardless of
any override that selected a different strategy at construction). -/
theorem http_strategy_unsafe_ssl (c : Configuration) :
    c.http_strategy true
      = ⟨HttpStrategyKind.httplibStrategy, c.environment⟩ := rfl

/-- C3: strategy resolution follows override-variable, then Python 2.5 →
pycurl, then requests; a successful `instantiate` caches exactly the
resolved strategy in the snapshot, and `http_strategy` with unsafe SSL off
returns that cached value without recomputing. -/
theorem strategy_resolution_order
    (pc pc' : ProcessConfig) (c : Configuration)
    (os : Option String) (vi vi2 : Nat × Nat) (env : Environment) (n : String)
    (hno : ¬(vi2.1 = 2 ∧ vi2.2 = 5))
    (h : instantiate pc os vi = Except.ok (c, pc')) :
    determine_http_strategy (some n) vi env
        = http_strategy_from_environment n env ∧
    determine_http_strategy none (2, 5) env
        = Except.ok ⟨HttpStrategyKind.pycurlStrategy, env⟩ ∧
    determine_http_strategy none vi2 env
        = Except.ok ⟨HttpStrategyKind.requestsStrategy, env⟩ ∧
    determine_http_strategy os vi pc.environment
        = Except.ok c._http_strategy ∧
    c.http_strategy false = c._http_strategy := by
  obtain ⟨-, -, -, -, hs, -⟩ := instantiate_ok_elim h
  refine ⟨rfl, by simp [determine_http_strategy], ?_, hs, rfl⟩
  simp [determine_http_strategy, hno]

/-- C3 witness: concrete resolution under version (3, 6) with no override,
plus the override and legacy-version branches at concrete inputs. -/
theorem strategy_resolution_order_witness :
    ¬(((3, 6) : Nat × Nat).1 = 2 ∧ ((3, 6) : Nat × Nat).2 = 5) ∧
    instantiate prevState none (3, 6) = Except.ok (snapPrev, prevState) ∧
    (determine_http_strategy (some "pycurl") (3, 6) sandbox
        = http_strategy_from_environment "pycurl" sandbox ∧
     determine_http_strategy none (2, 5) sandbox
        = Except.ok ⟨HttpStrategyKind.pycurlStrategy, sandbox⟩ ∧
     determine_http_strategy none (3, 6) sandbox
        = Except.ok ⟨HttpStrategyKind.requestsStrategy, sandbox⟩ ∧
     determine_http_strategy none (3, 6) prevState.environment
        = Except.ok snapPrev._http_strategy ∧
     snapPrev.http_strategy false = snapPrev._http_strategy) :=
  ⟨by decide, rfl,
    strategy_resolution_order prevState prevState snapPrev none (3, 6) (3, 6)
      sandbox "pycurl" (by decide) rfl⟩

/-- C4: the override values "httplib", "pycurl" and "requests" select the
strategy of the same name; any other value raises the invalid-configuration
error; snapshot construction fails if and only if the override variable is
set to an unrecognized value. -/
theorem strategy_override_values
    (env : Environment) (n : String) (pc : ProcessConfig)
    (os : Option String) (vi : Nat × Nat)
    (hn : n ≠ "httplib" ∧ n ≠ "pycurl" ∧ n ≠ "requests") :
    http_strategy_from_environment "httplib" env
        = Except.ok ⟨HttpStrategyKind.httplibStrategy, env⟩ ∧
    http_strategy_from_environment "pycurl" env
        = Except.ok ⟨HttpStrategyKind.pycurlStrategy, env⟩ ∧
    http_strategy_from_environment "requests" env
        = Except.ok ⟨HttpStrategyKind.requestsStrategy, env⟩ ∧
    http_strategy_from_environment n env
        = Except.error "invalid http strategy" ∧
    ((∃ e, instantiate pc os vi = Except.error e) ↔
      (∃ m, os = some m ∧ m ≠ "httplib" ∧ m ≠ "pycurl" ∧ m ≠ "requests")) := by
  obtain ⟨h1, h2, h3⟩ := hn
  refine ⟨rfl, rfl, rfl, ?_, ?_⟩
  · simp [http_strategy_from_environment, h1, h2, h3]
  · exact (instantiate_error_iff pc os vi).trans
      (determine_error_iff os vi pc.environment)

/-- C4 witness: concrete dispatch of each recognized name and of the
unrecognized name "bogus", which makes snapshot construction fail. -/
theorem strategy_override_values_witness :
    http_strategy_from_environment "httplib" sandbox
        = Except.ok ⟨HttpStrategyKind.httplibStrategy, sandbox⟩ ∧
    http_strategy_from_environment "pycurl" sandbox
        = Except.ok ⟨HttpStrategyKind.pycurlStrategy, sandbox⟩ ∧
    http_strategy_from_environment "requests" sandbox
        = Except.ok ⟨HttpStrategyKind.requestsStrategy, sandbox⟩ ∧
    http_strategy_from_environment "bogus" sandbox
        = Except.error "invalid http strategy" ∧
    instantiate prevState (some "bogus") (3, 6)
        = Except.error "invalid http strategy" :=
  have h := strategy_override_values sandbox "bogus" prevState
    (some "bogus") (3, 6) (by decide)
  ⟨h.1, h.2.1, h.2.2.1, h.2.2.2.1, rfl⟩

/-- C5: `configure` followed by `instantiate` yields a snapshot whose
environment, merchant_id, public_key and private_key equal the configured
inputs, for either value of `use_once`. -/
theorem configure_instantiate_snapshot_fields
    (prev pc' : ProcessConfig) (c : Configuration) (env : Environment)
    (mid pub priv : String) (u : Bool) (os : Option String) (vi : Nat × Nat)
    (h : instantiate (configure prev env mid pub priv u) os vi
           = Except.ok (c, pc')) :
    c.environment = env ∧ c.merchant_id = some mid ∧
    c.public_key = some pub ∧ c.private_key = some priv := by
  obtain ⟨he, hm, hp, hv, -, -⟩ := instantiate_ok_elim h
  simp_all [configure]

/-- C5 witness: configuring merchant "m2" and instantiating returns a
snapshot carrying exactly those four inputs. -/
theorem configure_instantiate_snapshot_fields_witness :
    instantiate pcTwo none (3, 6) = Except.ok (snapTwo, pcTwo) ∧
    snapTwo.environment = sandbox ∧ snapTwo.merchant_id = some "m2" ∧
    snapTwo.public_key = some "pub2" ∧ snapTwo.private_key = some "priv2" :=
  ⟨rfl, configure_instantiate_snapshot_fields prevState pcTwo snapTwo sandbox
    "m2" "pub2" "priv2" false none (3, 6) rfl⟩

/-- C6: whenever `base_merchant_path` yields a path, `base_merchant_url`
yields `environment.protocol ++ environment.server_and_port ++` that path. -/
theorem base_merchant_url_concat (c : Configuration) (p : String)
    (h : c.base_merchant_path = some p) :
    c.base_merchant_url
      = some (c.environment.protocol ++ c.environment.server_and_port ++ p) := by
  simp [Configuration.base_merchant_url, h]

/-- C6 witness: the concrete snapshot for merchant "m1" yields the full
sandbox URL. -/
theorem base_merchant_url_concat_witness :
    snapOnce.base_merchant_path = some "/merchants/m1" ∧
    snapOnce.base_merchant_url
      = some "https://sandbox.example.com/merchants/m1" :=
  ⟨rfl, base_merchant_url_concat snapOnce "/merchants/m1" rfl⟩

/-- C7: for a snapshot whose merchant_id is configured (non-`None`),
`base_merchant_path` is "/merchants/" followed by that merchant id. -/
theorem base_merchant_path_eq (c : Configuration) (m : String)
    (h : c.merchant_id = some m) :
    c.base_merchant_path = some ("/merchants/" ++ m) := by
  simp [Configuration.base_merchant_path, h]

/-- C7 witness: the concrete snapshot for merchant "m1". -/
theorem base_merchant_path_eq_witness :
    snapOnce.merchant_id = some "m1" ∧
    snapOnce.base_merchant_path = some "/merchants/m1" :=
  ⟨rfl, base_merchant_path_eq snapOnce "m1" rfl⟩

/-- C8: `_request_complete` clears the snapshot's own credential fields when
the process-wide `use_once` flag is set (leaving environment and cached
strategy intact), and leaves the snapshot entirely unchanged when it is
not. -/
theorem request_complete_clears_iff_use_once (c : Configuration) :
    ((c.request_complete true).merchant_id = none ∧
     (c.request_complete true).public_key = none ∧
     (c.request_complete true).private_key = none ∧
     (c.request_complete true).environment = c.environment ∧
     (c.request_complete true)._http_strategy = c._http_strategy) ∧
    c.request_complete false = c := by
  simp [Configuration.request_complete]

/-- C9: `configure` unconditionally resets the process-wide unsafe-SSL flag
to false, whatever the previous state held (in particular when the caller
had set it to true). -/
theorem configure_clears_use_unsafe_ssl (prev : ProcessConfig)
    (env : Environment) (mid pub priv : String) (u : Bool) :
    (configure prev env mid pub priv u).use_unsafe_ssl = false := rfl

/-- C10: `instantiate` never changes the process-wide environment, use_once
or use_unsafe_ssl; with `use_once = false` it leaves the whole process state
unchanged, and with `use_once = true` it changes only the three credential
fields. -/
theorem instantiate_frame
    (pcF pcT pcF' pcT' : ProcessConfig) (cF cT : Configuration)
    (osF osT : Option String) (viF viT : Nat × Nat)
    (huF : pcF.use_once = false) (huT : pcT.use_once = true)
    (hF : instantiate pcF osF viF = Except.ok (cF, pcF'))
    (hT : instantiate pcT osT viT = Except.ok (cT, pcT')) :
    pcF' = pcF ∧
    pcT' = { pcT with merchant_id := none, public_key := none,
                      private_key := none } ∧
    pcT'.environment = pcT.environment ∧
    pcT'.use_once = pcT.use_once ∧
    pcT'.use_unsafe_ssl = pcT.use_unsafe_ssl := by
  obtain ⟨-, -, -, -, -, hF'⟩ := instantiate_ok_elim hF
  obtain ⟨-, -, -, -, -, hT'⟩ := instantiate_ok_elim hT
  simp only [huF, Bool.false_eq_true, if_false] at hF'
  simp only [huT, if_true] at hT'
  subst hF'
  subst hT'
  simp [huT]

/-- C10 witness: concrete runs from `prevState` (use_once off, state
unchanged) and from `pcOnce` (use_once on, only credentials cleared). -/
theorem instantiate_frame_witness :
    prevState.use_once = false ∧ pcOnce.use_once = true ∧
    instantiate prevState none (3, 6) = Except.ok (snapPrev, prevState) ∧
    instantiate pcOnce none (3, 6) = Except.ok (snapOnce, pcCleared) ∧
    pcCleared = { pcOnce with merchant_id := none, public_key := none,
                              private_key := none } ∧
    pcCleared.environment = pcOnce.environment ∧
    pcCleared.use_once = pcOnce.use_once ∧
    pcCleared.use_unsafe_ssl = pcOnce.use_unsafe_ssl :=
  have h := instantiate_frame prevState pcOnce prevState pcCleared snapPrev
    snapOnce none none (3, 6) (3, 6) rfl rfl rfl rfl
  ⟨rfl, rfl, rfl, rfl, h.2.1, h.2.2.1, h.2.2.2.1, h.2.2.2.2⟩

end Braintree
